import Mathlib

/-!
Shallow embedding of `src/SDK/optixNDRangeSearch/optixNDRangeSearch.cpp`.

The program reads a comma-separated point cloud, pads the per-row field
count up to a multiple of 3 (`tokenize`), splits every row into
`dim / 3` three-coordinate batches (`read_pc_data`), builds one OptiX
acceleration structure per batch (`createGeometry`), launches the
batch-0 query kernel once (`launchSubframe` called with batch id 0 in
`main`), and finally re-checks the device result buffer on the host
(the verification loop at the end of `main`).

Modelling conventions:
* machine floats become `ℚ` (exact arithmetic; no claim here depends on
  rounding), `double` accumulation of `sqrt` values is mapped to `ℝ`;
* the host arrays `float3** ndpoints` become a total function
  `ℕ → ℕ → Option F3`; `none` stands for memory never written by the
  program, and a coordinate of an `F3` cell is `Option ℚ`, with `none`
  standing for a `std::vector` read out of bounds (the source performs
  such reads when the field count is not a multiple of 3);
* `unsigned int` result slots become `ℕ` together with the explicit
  sentinel `UINT_MAX = 2 ^ 32 - 1` produced by `cudaMemset 0xFF`;
* the GPU pipeline itself (`geometry.cu` / `camera.cu`) is not part of
  the sources; where a statement needs it, a definition explicitly
  marked `Modelled from the spec` is used instead;
* `atoi` / `stof` on option values are uninterpreted function
  parameters: no statement below depends on numeric string parsing.
-/

/-- `UINT_MAX`, the sentinel stored in unused result slots. -/
def UINT_MAX : ℕ := 4294967295

/-- `tokenize`, lines 151-152: `if ((dim % 3) != 0) dim = (dim/3+1)*3;`
rounds the field count of a row up to the next multiple of 3. -/
def padDim (d : ℕ) : ℕ := if d % 3 ≠ 0 then (d / 3 + 1) * 3 else d

/-- One `float3` cell of `ndpoints`; each coordinate is `none` when the
source would read the row's coordinate vector out of bounds. -/
structure F3 where
  x : Option ℚ
  y : Option ℚ
  z : Option ℚ
deriving DecidableEq

/-- `tokenize`, line 156:
`make_float3(vcoords[batch*3], vcoords[batch*3+1], vcoords[batch*3+2])`. -/
def tripleOf (r : List ℚ) (b : ℕ) : F3 :=
  ⟨r.get? (3 * b), r.get? (3 * b + 1), r.get? (3 * b + 2)⟩

/-- The `float3** ndpoints` store: batch index, then line index. -/
abbrev NdMem := ℕ → ℕ → Option F3

/-- A single assignment `ndpoints[b][i] = v`. -/
def setCell (nd : NdMem) (b i : ℕ) (v : Option F3) : NdMem :=
  fun b' i' => if b' = b ∧ i' = i then v else nd b' i'

/-- `tokenize`, lines 154-159: the write loop
`for (batch = 0; batch < dim/3; batch++) ndpoints[batch][lineId] = point;`
with `dim` the padded field count of the row being tokenized. -/
def writeRow (nd : NdMem) (i : ℕ) (r : List ℚ) : NdMem :=
  (List.range (padDim r.length / 3)).foldl
    (fun a b => setCell a b i (some (tripleOf r b))) nd

/-- `read_pc_data`, lines 195-203: the second `getline` loop, calling
`tokenize(str, ",", ndpoints, lines)` with `lines` counting up from 0. -/
def loadRows (nd : NdMem) (i : ℕ) : List (List ℚ) → NdMem
  | [] => nd
  | r :: rs => loadRows (writeRow nd i r) (i + 1) rs

/-- The triple `(*N, *d, ndpoints)` produced by `read_pc_data`. -/
structure IngestResult where
  N : ℕ
  dim : ℕ
  nd : NdMem

/-- `read_pc_data`, lines 173-207, on an already-split line list: the
first pass tokenizes only line 0 to obtain the (padded) dimension and
counts the lines; the second pass writes every row into the batch
arrays. -/
def read_pc_data (rows : List (List ℚ)) : IngestResult :=
  { N := rows.length
    dim :=
      match rows.head? with
      | some r => padDim r.length
      | none => 0
    nd := loadRows (fun _ _ => none) 0 rows }

/-! ### The host-side verification pass (`main`, lines 904-929) -/

/-- A plain 3-vector as used by the verification loop. -/
structure Q3 where
  x : ℚ
  y : ℚ
  z : ℚ
deriving DecidableEq

/-- `dot(diff, diff)` for `diff = a - b` (`main`, lines 913-914). -/
def distSq (a b : Q3) : ℚ :=
  (a.x - b.x) * (a.x - b.x) + (a.y - b.y) * (a.y - b.y) + (a.z - b.z) * (a.z - b.z)

/-- The per-query-row contribution to the verification counters:
`cnt` entries examined, `wrong` of them failing the radius check,
`wrongSqs` their squared distances in scan order (the code adds
`sqrt` of each to `totalWrongDist`), `printedIdx` the indices printed
by `std::cout << p`. -/
structure RowStats where
  cnt : ℕ
  wrong : ℕ
  wrongSqs : List ℚ
  printedIdx : List ℕ
deriving DecidableEq

/-- `main`, lines 908-923: the inner loop over the `knn` slots of query
`q`'s row; `if (p == UINT_MAX) break;` stops at the first sentinel,
otherwise the entry is counted, distance-checked against
`radius*radius` (`rr`), and printed. -/
def verifyRow (pts : List Q3) (rr : ℚ) (q : ℕ) : List ℕ → RowStats
  | [] => ⟨0, 0, [], []⟩
  | p :: rest =>
    if p = UINT_MAX then ⟨0, 0, [], []⟩
    else
      let s := verifyRow pts rr q rest
      let d := distSq (pts.getD p ⟨0, 0, 0⟩) (pts.getD q ⟨0, 0, 0⟩)
      if rr < d then ⟨s.cnt + 1, s.wrong + 1, d :: s.wrongSqs, p :: s.printedIdx⟩
      else ⟨s.cnt + 1, s.wrong, s.wrongSqs, p :: s.printedIdx⟩

/-- Query `q`'s slice `data[q*knn .. q*knn+knn-1]` of the result buffer. -/
def rowOf (dev : List ℕ) (knn q : ℕ) : List ℕ := (dev.drop (q * knn)).take knn

/-- The accumulated verification counters of `main`, lines 904-906. -/
structure VerifyStats where
  totalNeighbors : ℕ
  totalWrongNeighbors : ℕ
  wrongDistSqs : List ℚ
  printed : List (List ℕ)
deriving DecidableEq


/-- The body of the outer verification loop (`main`, lines 907-925):
fold query `q`'s row into the running counters. -/
def verifyStep (pts : List Q3) (rr : ℚ) (knn : ℕ) (dev : List ℕ)
    (s : VerifyStats) (q : ℕ) : VerifyStats :=
  let rs := verifyRow pts rr q (rowOf dev knn q)
  { totalNeighbors := s.totalNeighbors + rs.cnt
    totalWrongNeighbors := s.totalWrongNeighbors + rs.wrong
    wrongDistSqs := s.wrongDistSqs ++ rs.wrongSqs
    printed := s.printed ++ [rs.printedIdx] }

/-- `main`, lines 904-925: the outer loop over all `numPrims` queries,
with `rr = radius * radius` precomputed as in line 915.
`wrongDistSqs` collects the squared distances whose square roots the
code adds to `totalWrongDist`; `printed` collects the printed row
contents. -/
def verify (pts : List Q3) (radius : ℚ) (knn numPrims : ℕ) (dev : List ℕ) :
    VerifyStats :=
  (List.range numPrims).foldl (verifyStep pts (radius * radius) knn dev) ⟨0, 0, [], []⟩

/-- `main`, line 929:
`if (totalWrongNeighbors != 0) std::cerr << "Avg wrong dist: " << totalWrongDist / totalWrongNeighbors`,
with `totalWrongDist` the sum of `sqrt(dists)` over the wrong entries. -/
noncomputable def reportAvgWrongDist (s : VerifyStats) : Option ℝ :=
  if s.totalWrongNeighbors = 0 then none
  else some ((s.wrongDistSqs.map (fun d => Real.sqrt (d : ℝ))).sum / (s.totalWrongNeighbors : ℝ))

/-- Follows the spec's words (claim C6): the average, over the incorrect
reports, of the excess distance beyond the radius. This is the value the
claim says is reported; it is compared against `reportAvgWrongDist`,
which is what the code computes. -/
noncomputable def specAvgExcessDist (radius : ℚ) (s : VerifyStats) : Option ℝ :=
  if s.totalWrongNeighbors = 0 then none
  else some ((s.wrongDistSqs.map (fun d => Real.sqrt (d : ℝ) - (radius : ℝ))).sum /
    (s.totalWrongNeighbors : ℝ))

/-- The sentinel-terminated slots the verification loop actually scans. -/
def scannedEntries (row : List ℕ) : List ℕ := row.takeWhile (fun p => p != UINT_MAX)

/-- The squared distances of the scanned entries that fail the radius
check `dists > radius*radius`. -/
def wrongSqsOf (pts : List Q3) (rr : ℚ) (q : ℕ) (row : List ℕ) : List ℚ :=
  ((scannedEntries row).map
    (fun p => distSq (pts.getD p ⟨0, 0, 0⟩) (pts.getD q ⟨0, 0, 0⟩))).filter
      (fun d => decide (rr < d))

/-! ### The result buffer (`launchSubframe`, lines 664-677) -/

/-- A 32-bit word all four of whose bytes were set to `v` by `cudaMemset`
(`launchSubframe`, line 673 sets every byte of the buffer to `0xFF`). -/
def memsetWord (v : ℕ) : ℕ := v + 256 * (v + 256 * (v + 256 * v))

/-- The `numPrims * knn` unsigned-int result buffer right after
`cudaMemsetAsync(result_buffer_data, 0xFF, numPrims*knn*sizeof(unsigned int))`. -/
def initResultBuffer (numPrims knn : ℕ) : List ℕ :=
  List.replicate (numPrims * knn) (memsetWord 255)

/-- Query `q`'s row of `knn` slots inside the flat result buffer, as read
back by `main`, line 909: `data[q * knn + j]` for `j < knn`. -/
def resultRow (buf : List ℕ) (knn q : ℕ) : List ℕ := (buf.drop (q * knn)).take knn

/-- Modelled from the spec: the device-side query programs
(`geometry.cu` / `camera.cu`, referenced by `createModules` but not part
of the host sources) fill a query's Result Row left-to-right with the
accepted neighbor indices as they are discovered; slots they do not fill
are left untouched ("filled left-to-right as accepted neighbors are
discovered; unfilled slots remain sentinel"). -/
def fillRow (knn : ℕ) (accepted row : List ℕ) : List ℕ :=
  accepted.take knn ++ row.drop (min accepted.length knn)

/-! ### CLI parsing and `main`'s control flow -/

/-- The configuration accumulated by `main`'s argument loop
(lines 766-768: `radius = 2`, `knn = 50`, `outfile` empty). -/
structure Config where
  outfile : String
  radius : ℚ
  knn : ℕ
deriving DecidableEq

/-- `main`, lines 766-768. -/
def defaultConfig : Config := { outfile := "", radius := 2, knn := 50 }

/-- Outcome of the argument loop: either `printUsageAndExit` was reached
(which prints the usage text and calls `exit(0)`, lines 210-218), or the
loop finished with a configuration. -/
inductive ParseOutcome where
  | usage
  | ok (cfg : Config)
deriving DecidableEq

/-- Every string the argument loop recognizes as a flag. -/
def knownFlags : List String :=
  ["--help", "-h", "--file", "-f", "--knn", "-k", "--radius", "-r"]

/-- `main`, lines 770-800: the argument loop. `atoi` and `stof` are the
uninterpreted numeric conversions applied to option values; a flag that
takes a value consumes the following argument (`argv[++i]`), and a
value-taking flag in last position hits `i >= argc - 1` and prints
usage. Anything unrecognized prints usage (lines 795-799). -/
def parseArgs (atoi : String → ℕ) (stof : String → ℚ) :
    List String → Config → ParseOutcome
  | [], cfg => .ok cfg
  | [a], _ =>
    if a = "--help" ∨ a = "-h" then .usage
    else if a = "--file" ∨ a = "-f" then .usage
    else if a = "--knn" ∨ a = "-k" then .usage
    else if a = "--radius" ∨ a = "-r" then .usage
    else .usage
  | a :: v :: rest, cfg =>
    if a = "--help" ∨ a = "-h" then .usage
    else if a = "--file" ∨ a = "-f" then
      parseArgs atoi stof rest { cfg with outfile := v }
    else if a = "--knn" ∨ a = "-k" then
      parseArgs atoi stof rest { cfg with knn := atoi v }
    else if a = "--radius" ∨ a = "-r" then
      parseArgs atoi stof rest { cfg with radius := stof v }
    else .usage

/-- The spec's error taxonomy name for a missing/unreadable input file;
in the source this is the diagnostic plus `assert(0)` in `read_pc_data`,
lines 168-171. -/
inductive ProgErr where
  | SourceUnavailable
deriving DecidableEq

/-- The observable outcome of one program run: whether the usage text
was printed, whether the `"Could not read the frame data..."` diagnostic
was printed, whether the process terminated normally with status 0
(`exitOk = false` models the abnormal `assert(0)` termination), which
batches got an acceleration structure built (`createGeometry`'s loop),
the batch ids passed to `launchSubframe`, and the verification counters. -/
structure RunResult where
  usagePrinted : Bool
  diagPrinted : Bool
  exitOk : Bool
  err : Option ProgErr
  builtBatches : List ℕ
  launches : List ℕ
  stats : Option VerifyStats

/-- Result of any path through `printUsageAndExit` (lines 210-218):
usage printed, `exit(0)`, nothing built, nothing launched. -/
def usageResult : RunResult :=
  { usagePrinted := true, diagPrinted := false, exitOk := true, err := none,
    builtBatches := [], launches := [], stats := none }

/-- Result of `read_pc_data` failing to open the input (lines 168-171):
diagnostic printed, `assert(0)` aborts the process abnormally, nothing
built, nothing launched. -/
def srcUnavailResult : RunResult :=
  { usagePrinted := false, diagPrinted := true, exitOk := false,
    err := some ProgErr.SourceUnavailable, builtBatches := [], launches := [],
    stats := none }

/-- The batch-0 point array handed to the verification loop
(`state.ndpoints[0][...]`, lines 913). A cell the program never wrote,
or a coordinate the source read out of bounds, is replaced by `0`; the
runs reasoned about below never hit those cells. -/
def q3OfCell : Option F3 → Q3
  | some f => ⟨f.x.getD 0, f.y.getD 0, f.z.getD 0⟩
  | none => ⟨0, 0, 0⟩

/-- The first `N` entries of batch 0 of the `ndpoints` store. -/
def pointsOfNd (nd : NdMem) (N : ℕ) : List Q3 :=
  (List.range N).map (fun i => q3OfCell (nd 0 i))

/-- `main`, lines 762-939, with the GPU work abstracted: parse the
arguments; read the point file (`fs` maps a file name to its rows if it
can be opened); reject `dim <= 0 || dim > MAX_DIM` via usage-exit
(lines 806-808; `MAX_DIM` lives in the header `optixNDRangeSearch.h`,
which is not among the sources, so it is the parameter `maxDim`);
otherwise build one acceleration structure per batch
(`createGeometry`'s loop over `b < state.batch`), launch the
query kernel exactly once with batch id 0 (line 877), and run the
host verification over the device result buffer `dev`. -/
def mainRun (atoi : String → ℕ) (stof : String → ℚ) (args : List String)
    (fs : String → Option (List (List ℚ))) (dev : List ℕ) (maxDim : ℕ) :
    RunResult :=
  match parseArgs atoi stof args defaultConfig with
  | .usage => usageResult
  | .ok cfg =>
    match fs cfg.outfile with
    | none => srcUnavailResult
    | some rows =>
      let ing := read_pc_data rows
      if ing.dim = 0 ∨ maxDim < ing.dim then usageResult
      else
        { usagePrinted := false, diagPrinted := false, exitOk := true, err := none,
          builtBatches := List.range (ing.dim / 3)
          launches := [0]
          stats := some (verify (pointsOfNd ing.nd ing.N) cfg.radius cfg.knn ing.N dev) }

/-! ### Concrete instances used by the closed statements below -/

/-- A concrete stand-in for `atoi` (e.g. `atoi("--bogus") == 0`). -/
def atoi0 : String → ℕ := fun _ => 0

/-- A concrete stand-in for `stof`. -/
def stof0 : String → ℚ := fun _ => 0

/-- A concrete `stof` returning a negative radius. -/
def stofNeg : String → ℚ := fun _ => -1

/-- A file system with no readable file. -/
def fsNone : String → Option (List (List ℚ)) := fun _ => none

/-- A file system in which every name opens a one-line, 3-field file. -/
def fsOne : String → Option (List (List ℚ)) := fun _ => some [[1, 2, 3]]

/-- A file system in which every name opens the single point `(0,0,0)`. -/
def fsOne0 : String → Option (List (List ℚ)) := fun _ => some [[0, 0, 0]]

/-- Two points at distance 3: the setting for the verification examples. -/
def ptsC6 : List Q3 := [⟨0, 0, 0⟩, ⟨3, 0, 0⟩]

/-- A device buffer for 2 queries with `knn = 3`: query 0's row reports
neighbor 1, then a sentinel, then a stale non-sentinel entry. -/
def devC6 : List ℕ := [1, UINT_MAX, 1, UINT_MAX, UINT_MAX, UINT_MAX]

/-- Argument lists the loop of `main`, lines 770-800, consumes completely
as known flag/value pairs before reaching the argument that follows. -/
inductive ConsumedArgs : List String → Prop where
  | nil : ConsumedArgs []
  | file (a v : String) (rest : List String) (h : a = "--file" ∨ a = "-f")
      (hr : ConsumedArgs rest) : ConsumedArgs (a :: v :: rest)
  | knn (a v : String) (rest : List String) (h : a = "--knn" ∨ a = "-k")
      (hr : ConsumedArgs rest) : ConsumedArgs (a :: v :: rest)
  | radius (a v : String) (rest : List String) (h : a = "--radius" ∨ a = "-r")
      (hr : ConsumedArgs rest) : ConsumedArgs (a :: v :: rest)
/-! ### Basic facts about the padded dimension -/

theorem padDim_div_three (d : ℕ) : padDim d / 3 = (d + 2) / 3 := by
  unfold padDim
  split <;> omega

theorem padDim_pos (d : ℕ) (h : 0 < d) : 0 < padDim d := by
  unfold padDim
  split <;> omega

theorem padDim_eq_of_mod (d : ℕ) (h : d % 3 = 0) : padDim d = d := by
  simp [padDim, h]

theorem padDim_eq_three_mul (d : ℕ) : padDim d = 3 * ((d + 2) / 3) ∨ d % 3 = 0 ∧ padDim d = d := by
  unfold padDim
  split <;> omega

/-! ### Evaluation of the `ndpoints` store -/

theorem setCell_eval (nd : NdMem) (b i b' i' : ℕ) (v : Option F3) :
    setCell nd b i v b' i' = if b' = b ∧ i' = i then v else nd b' i' := rfl

theorem foldl_setCell_eval (l : List ℕ) (nd : NdMem) (i : ℕ) (g : ℕ → Option F3)
    (b j : ℕ) :
    (l.foldl (fun a bb => setCell a bb i (g bb)) nd) b j =
      if j = i ∧ b ∈ l then g b else nd b j := by
  induction l generalizing nd with
  | nil => simp
  | cons x xs ih =>
    simp only [List.foldl_cons, ih, List.mem_cons, setCell_eval]
    by_cases hj : j = i <;> by_cases hbx : b = x <;> by_cases hxs : b ∈ xs <;>
      simp [hj, hbx, hxs]

theorem writeRow_eval (nd : NdMem) (i : ℕ) (r : List ℚ) (b j : ℕ) :
    writeRow nd i r b j =
      if j = i ∧ b < padDim r.length / 3 then some (tripleOf r b) else nd b j := by
  unfold writeRow
  rw [foldl_setCell_eval]
  simp [List.mem_range]

theorem loadRows_lt (rows : List (List ℚ)) (nd : NdMem) (k b j : ℕ) (h : j < k) :
    loadRows nd k rows b j = nd b j := by
  induction rows generalizing nd k with
  | nil => rfl
  | cons r rs ih =>
    rw [loadRows, ih _ _ (by omega), writeRow_eval]
    simp [show ¬(j = k) by omega]

theorem loadRows_hit (rows : List (List ℚ)) (nd : NdMem) (k b j : ℕ)
    (hk : k ≤ j) (hj : j - k < rows.length) :
    loadRows nd k rows b j =
      if b < padDim ((rows.getD (j - k) []).length) / 3 then
        some (tripleOf (rows.getD (j - k) []) b)
      else nd b j := by
  induction rows generalizing nd k with
  | nil => simp at hj
  | cons r rs ih =>
    rw [loadRows]
    by_cases hjk : j = k
    · subst hjk
      rw [loadRows_lt _ _ _ _ _ (by omega), writeRow_eval]
      simp
    · have h1 : k + 1 ≤ j := by omega
      have h2 : j - (k + 1) < rs.length := by
        simp only [List.length_cons] at hj; omega
      have hgd : (r :: rs).getD (j - k) [] = rs.getD (j - (k + 1)) [] := by
        have : j - k = (j - (k + 1)) + 1 := by omega
        simp [this]
      rw [ih _ _ h1 h2, writeRow_eval, hgd]
      simp [hjk]

theorem read_pc_data_cell (rows : List (List ℚ)) (b j : ℕ) (hj : j < rows.length) :
    (read_pc_data rows).nd b j =
      if b < padDim ((rows.getD j []).length) / 3 then
        some (tripleOf (rows.getD j []) b)
      else none := by
  show loadRows (fun _ _ => none) 0 rows b j = _
  rw [loadRows_hit rows _ 0 b j (by omega) (by omega)]
  simp

theorem read_pc_data_dim (rows : List (List ℚ)) (r0 : List ℚ)
    (h : rows.head? = some r0) :
    (read_pc_data rows).dim = padDim r0.length := by
  simp [read_pc_data, h]


theorem verifyRow_characterization (pts : List Q3) (rr : ℚ) (q : ℕ) (row : List ℕ) :
    verifyRow pts rr q row =
      { cnt := (scannedEntries row).length
        wrong := (wrongSqsOf pts rr q row).length
        wrongSqs := wrongSqsOf pts rr q row
        printedIdx := scannedEntries row } := by
  induction row with
  | nil => rfl
  | cons p rest ih =>
    by_cases hp : p = UINT_MAX
    · simp [verifyRow, hp, scannedEntries, wrongSqsOf]
    · have hb : (p != UINT_MAX) = true := by simp [hp]
      have hsc : scannedEntries (p :: rest) = p :: scannedEntries rest := by
        simp only [scannedEntries, List.takeWhile_cons, hb]
        simp
      have hmap : wrongSqsOf pts rr q (p :: rest) =
          (distSq (pts.getD p ⟨0, 0, 0⟩) (pts.getD q ⟨0, 0, 0⟩) ::
            ((scannedEntries rest).map
              (fun p => distSq (pts.getD p ⟨0, 0, 0⟩) (pts.getD q ⟨0, 0, 0⟩)))).filter
                (fun d => decide (rr < d)) := by
        simp only [wrongSqsOf, hsc, List.map_cons]
      by_cases hd : rr < distSq (pts.getD p ⟨0, 0, 0⟩) (pts.getD q ⟨0, 0, 0⟩)
      · have hw : wrongSqsOf pts rr q (p :: rest) =
            distSq (pts.getD p ⟨0, 0, 0⟩) (pts.getD q ⟨0, 0, 0⟩) ::
              wrongSqsOf pts rr q rest := by
          rw [hmap, List.filter_cons]
          simp only [decide_eq_true_eq]
          rw [if_pos hd]
          rfl
        simp only [verifyRow, if_neg hp, ih, if_pos hd]
        simp [hw, hsc]
      · have hw : wrongSqsOf pts rr q (p :: rest) = wrongSqsOf pts rr q rest := by
          rw [hmap, List.filter_cons]
          simp only [decide_eq_true_eq]
          rw [if_neg hd]
          rfl
        simp only [verifyRow, if_neg hp, ih, if_neg hd]
        simp [hw, hsc]

theorem verify_foldl_eval (pts : List Q3) (rr : ℚ) (knn : ℕ) (dev : List ℕ)
    (l : List ℕ) (s : VerifyStats) :
    l.foldl (verifyStep pts rr knn dev) s =
      { totalNeighbors :=
          s.totalNeighbors + (l.map (fun q => (verifyRow pts rr q (rowOf dev knn q)).cnt)).sum
        totalWrongNeighbors :=
          s.totalWrongNeighbors +
            (l.map (fun q => (verifyRow pts rr q (rowOf dev knn q)).wrong)).sum
        wrongDistSqs :=
          s.wrongDistSqs ++
            (l.map (fun q => (verifyRow pts rr q (rowOf dev knn q)).wrongSqs)).flatten
        printed :=
          s.printed ++ l.map (fun q => (verifyRow pts rr q (rowOf dev knn q)).printedIdx) } := by
  induction l generalizing s with
  | nil => simp
  | cons a l ih =>
    rw [List.foldl_cons, ih]
    simp [verifyStep, List.append_assoc, Nat.add_assoc]

theorem verify_characterization (pts : List Q3) (radius : ℚ) (knn numPrims : ℕ)
    (dev : List ℕ) :
    verify pts radius knn numPrims dev =
      { totalNeighbors :=
          ((List.range numPrims).map
            (fun q => (scannedEntries (rowOf dev knn q)).length)).sum
        totalWrongNeighbors :=
          ((List.range numPrims).map
            (fun q => (wrongSqsOf pts (radius * radius) q (rowOf dev knn q)).length)).sum
        wrongDistSqs :=
          ((List.range numPrims).map
            (fun q => wrongSqsOf pts (radius * radius) q (rowOf dev knn q))).flatten
        printed :=
          (List.range numPrims).map (fun q => scannedEntries (rowOf dev knn q)) } := by
  unfold verify
  rw [verify_foldl_eval]
  simp only [verifyRow_characterization]
  simp


/-! ### Further helper lemmas -/

theorem replicate_get_some {α : Type} (a : α) :
    ∀ (k j : ℕ), j < k → (List.replicate k a).get? j = some a := by
  intro k
  induction k with
  | zero => intro j h; omega
  | succ n ih =>
    intro j h
    cases j with
    | zero => rfl
    | succ m => exact ih m (by omega)

theorem scannedEntries_idem (row : List ℕ) :
    scannedEntries (scannedEntries row) = scannedEntries row := by
  induction row with
  | nil => rfl
  | cons p rest ih =>
    by_cases hp : p = UINT_MAX
    · simp [scannedEntries, hp]
    · have hb : (p != UINT_MAX) = true := by simp [hp]
      simp only [scannedEntries, List.takeWhile_cons, hb, if_true]
      simpa [scannedEntries, List.takeWhile_cons, hb] using ih

theorem mainRun_ok (atoi : String → ℕ) (stof : String → ℚ) (args : List String)
    (fs : String → Option (List (List ℚ))) (dev : List ℕ) (maxDim : ℕ)
    (cfg : Config) (rows : List (List ℚ))
    (hp : parseArgs atoi stof args defaultConfig = .ok cfg)
    (hf : fs cfg.outfile = some rows) :
    mainRun atoi stof args fs dev maxDim =
      if (read_pc_data rows).dim = 0 ∨ maxDim < (read_pc_data rows).dim then
        usageResult
      else
        { usagePrinted := false, diagPrinted := false, exitOk := true, err := none,
          builtBatches := List.range ((read_pc_data rows).dim / 3)
          launches := [0]
          stats := some (verify (pointsOfNd (read_pc_data rows).nd (read_pc_data rows).N)
            cfg.radius cfg.knn (read_pc_data rows).N dev) } := by
  simp only [mainRun, hp, hf]

/-! ### Claim C1: sentinel-initialized fixed-width result rows -/

/-- C1: every query's result row has exactly `knn` unsigned 32-bit
slots; `cudaMemset 0xFF` pre-initializes every slot to
`UINT_MAX = 2^32 - 1` before any query writes; and after the (spec-modelled)
left-to-right device fill, every slot not holding an accepted neighbor
still reads back as the sentinel. -/
theorem c1_result_row_sentinel (numPrims knn q : ℕ) (accepted : List ℕ)
    (hq : q < numPrims) :
    memsetWord 255 = UINT_MAX ∧
    UINT_MAX = 2 ^ 32 - 1 ∧
    (resultRow (initResultBuffer numPrims knn) knn q).length = knn ∧
    (∀ s ∈ resultRow (initResultBuffer numPrims knn) knn q, s = UINT_MAX) ∧
    (fillRow knn accepted (resultRow (initResultBuffer numPrims knn) knn q)).length = knn ∧
    (∀ j, accepted.length ≤ j → j < knn →
      (fillRow knn accepted (resultRow (initResultBuffer numPrims knn) knn q)).get? j =
        some UINT_MAX) := by
  have hle : knn ≤ numPrims * knn - q * knn := by
    have h := Nat.mul_le_mul_right knn (show q + 1 ≤ numPrims by omega)
    have h2 : (q + 1) * knn = q * knn + knn := by ring
    omega
  have hrow : resultRow (initResultBuffer numPrims knn) knn q =
      List.replicate knn UINT_MAX := by
    unfold resultRow initResultBuffer
    rw [List.drop_replicate, List.take_replicate, Nat.min_eq_left hle]
    norm_num [memsetWord, UINT_MAX]
  refine ⟨by decide, by decide, ?_, ?_, ?_, ?_⟩
  · rw [hrow, List.length_replicate]
  · intro s hs
    rw [hrow] at hs
    exact List.eq_of_mem_replicate hs
  · rw [hrow]
    unfold fillRow
    rw [List.length_append, List.length_take, List.length_drop, List.length_replicate]
    omega
  · intro j h1 h2
    unfold fillRow
    rw [hrow]
    have hlt : accepted.length ≤ knn := by omega
    have hm : min accepted.length knn = accepted.length := by omega
    have htl : (accepted.take knn).length = accepted.length := by
      rw [List.length_take]; omega
    rw [List.get?_append_right (by omega), htl, hm, List.drop_replicate]
    exact replicate_get_some UINT_MAX _ _ (by omega)

theorem c1_result_row_sentinel_witness :
    1 < 2 ∧
      (memsetWord 255 = UINT_MAX ∧
      UINT_MAX = 2 ^ 32 - 1 ∧
      (resultRow (initResultBuffer 2 3) 3 1).length = 3 ∧
      (∀ s ∈ resultRow (initResultBuffer 2 3) 3 1, s = UINT_MAX) ∧
      (fillRow 3 [5] (resultRow (initResultBuffer 2 3) 3 1)).length = 3 ∧
      (∀ j, ([5] : List ℕ).length ≤ j → j < 3 →
        (fillRow 3 [5] (resultRow (initResultBuffer 2 3) 3 1)).get? j =
          some UINT_MAX)) :=
  ⟨by decide, c1_result_row_sentinel 2 3 1 [5] (by decide)⟩

/-! ### Claims C3 and C4: batching and the returned dimensionality -/

/-- C3 counterexample: with first row of 6 fields and second row of only
3 fields, `ceil(6/3) = 2` batches are constructed, but point 1
contributes no 3-tuple to batch 1 (its cell is never written), so "every
point contributes exactly one 3-tuple to every batch" fails as stated
for this input. -/
theorem c3_counterexample :
    (read_pc_data [[(1 : ℚ), 2, 3, 4, 5, 6], [(1 : ℚ), 2, 3]]).dim / 3 = 2 ∧
    (read_pc_data [[(1 : ℚ), 2, 3, 4, 5, 6], [(1 : ℚ), 2, 3]]).N = 2 ∧
    (read_pc_data [[(1 : ℚ), 2, 3, 4, 5, 6], [(1 : ℚ), 2, 3]]).nd 1 1 = none := by
  refine ⟨by decide, by decide, ?_⟩
  rfl

/-- C3 amended: provided every row has the same field count `D` as the
first row, the number of batches equals `ceil(D/3)` and every point's
cell in every batch is written with that row's 3-tuple for the batch. -/
theorem c3_amended (rows : List (List ℚ)) (D : ℕ) (r0 : List ℚ)
    (h0 : rows.head? = some r0) (hD : r0.length = D)
    (hU : ∀ r ∈ rows, r.length = D) :
    (read_pc_data rows).dim / 3 = (D + 2) / 3 ∧
    (∀ b j, b < (D + 2) / 3 → j < (read_pc_data rows).N →
      (read_pc_data rows).nd b j = some (tripleOf (rows.getD j []) b)) := by
  constructor
  · rw [read_pc_data_dim rows r0 h0, hD, padDim_div_three]
  · intro b j hb hj
    have hjlen : j < rows.length := hj
    have hlen : (rows.getD j []).length = D := by
      rw [List.getD_eq_getElem rows [] hjlen]
      exact hU _ (List.getElem_mem hjlen)
    rw [read_pc_data_cell rows b j hjlen, if_pos]
    rw [hlen, padDim_div_three]
    exact hb

theorem c3_amended_witness :
    ([[(1 : ℚ), 2, 3, 4]] : List (List ℚ)).head? = some [(1 : ℚ), 2, 3, 4] ∧
      ((read_pc_data [[(1 : ℚ), 2, 3, 4]]).dim / 3 = (4 + 2) / 3 ∧
      (∀ b j, b < (4 + 2) / 3 → j < (read_pc_data [[(1 : ℚ), 2, 3, 4]]).N →
        (read_pc_data [[(1 : ℚ), 2, 3, 4]]).nd b j =
          some (tripleOf ([[(1 : ℚ), 2, 3, 4]].getD j []) b))) :=
  ⟨rfl, c3_amended [[(1 : ℚ), 2, 3, 4]] 4 [(1 : ℚ), 2, 3, 4] rfl rfl
    (by intro r hr; rw [List.mem_singleton] at hr; rw [hr]; rfl)⟩

/-- C4 counterexample: on a first row with 4 fields, `read_pc_data`
reports dimensionality 6 (the padded value computed by `tokenize`),
not the true field count 4; the row count is reported correctly. -/
theorem c4_counterexample :
    (read_pc_data [[(1 : ℚ), 2, 3, 4]]).dim = 6 ∧
    (read_pc_data [[(1 : ℚ), 2, 3, 4]]).dim ≠ 4 ∧
    (read_pc_data [[(1 : ℚ), 2, 3, 4]]).N = 1 := by
  refine ⟨by decide, by decide, by decide⟩

/-- C4 amended: ingestion returns `N` equal to the number of rows, and
a dimensionality equal to the first row's field count rounded up to the
next multiple of 3 (so it equals the true field count exactly when that
count is a multiple of 3). -/
theorem c4_amended (rows : List (List ℚ)) (r0 : List ℚ)
    (h : rows.head? = some r0) :
    (read_pc_data rows).N = rows.length ∧
    (read_pc_data rows).dim = padDim r0.length ∧
    padDim r0.length = 3 * ((r0.length + 2) / 3) ∧
    (r0.length % 3 = 0 → (read_pc_data rows).dim = r0.length) := by
  refine ⟨rfl, read_pc_data_dim rows r0 h, ?_, ?_⟩
  · unfold padDim; split <;> omega
  · intro h3
    rw [read_pc_data_dim rows r0 h]
    exact padDim_eq_of_mod _ h3

theorem c4_amended_witness :
    ([[(1 : ℚ), 2, 3]] : List (List ℚ)).head? = some [(1 : ℚ), 2, 3] ∧
      ((read_pc_data [[(1 : ℚ), 2, 3]]).N = 1 ∧
      (read_pc_data [[(1 : ℚ), 2, 3]]).dim = padDim 3 ∧
      padDim 3 = 3 * ((3 + 2) / 3) ∧
      (3 % 3 = 0 → (read_pc_data [[(1 : ℚ), 2, 3]]).dim = 3)) := by
  refine ⟨rfl, ?_⟩
  have h := c4_amended [[(1 : ℚ), 2, 3]] [(1 : ℚ), 2, 3] rfl
  simpa using h

/-! ### Claims C10 and C6: the verification scan and its statistics -/

/-- C10: the verification loop scans a query's `knn` slots left to right
and stops at the first `UINT_MAX`: the row contributes exactly as its
sentinel-terminated front (`scannedEntries`), entries after the first
sentinel are never printed, and at the level of `verify` each printed
row is exactly the sentinel-terminated front of the corresponding
device-buffer slice. -/
theorem c10_sentinel_terminated_scan (pts : List Q3) (rr : ℚ) (q : ℕ)
    (row : List ℕ) (radius : ℚ) (knn numPrims : ℕ) (dev : List ℕ) :
    verifyRow pts rr q row = verifyRow pts rr q (scannedEntries row) ∧
    (verifyRow pts rr q row).printedIdx = scannedEntries row ∧
    (verify pts radius knn numPrims dev).printed =
      (List.range numPrims).map (fun q => scannedEntries (rowOf dev knn q)) := by
  refine ⟨?_, ?_, ?_⟩
  · rw [verifyRow_characterization, verifyRow_characterization pts rr q (scannedEntries row)]
    simp [wrongSqsOf, scannedEntries_idem]
  · rw [verifyRow_characterization]
  · rw [verify_characterization]


/-- C6 counterexample: points `(0,0,0)` and `(3,0,0)`, radius 1, K = 3,
and query 0's row `[1, UINT_MAX, 1]`. The code reports the average full
distance of wrong neighbors, `sqrt(9) = 3`, while the claim predicts the
average excess distance `3 - 1 = 2`; moreover the row holds two
non-sentinel entries but only the one before the sentinel is counted. -/
theorem c6_counterexample :
    verify ptsC6 1 3 2 devC6 =
      { totalNeighbors := 1, totalWrongNeighbors := 1, wrongDistSqs := [9],
        printed := [[1], []] } ∧
    ((devC6.take 3).filter (fun p => p != UINT_MAX)).length = 2 ∧
    (verify ptsC6 1 3 2 devC6).totalNeighbors = 1 ∧
    reportAvgWrongDist (verify ptsC6 1 3 2 devC6) = some 3 ∧
    specAvgExcessDist 1 (verify ptsC6 1 3 2 devC6) = some 2 ∧
    reportAvgWrongDist (verify ptsC6 1 3 2 devC6) ≠
      specAvgExcessDist 1 (verify ptsC6 1 3 2 devC6) := by
  have hsc0 : scannedEntries (rowOf devC6 3 0) = [1] := by decide
  have hsc1 : scannedEntries (rowOf devC6 3 1) = [] := by decide
  have hd : distSq (ptsC6.getD 1 ⟨0, 0, 0⟩) (ptsC6.getD 0 ⟨0, 0, 0⟩) = 9 := by
    norm_num [ptsC6, distSq]
  have hw0 : wrongSqsOf ptsC6 1 0 (rowOf devC6 3 0) = [9] := by
    simp only [wrongSqsOf, hsc0, List.map_cons, List.map_nil, List.filter_cons,
      List.filter_nil, hd]
    norm_num
  have hw1 : wrongSqsOf ptsC6 1 1 (rowOf devC6 3 1) = [] := by
    simp [wrongSqsOf, hsc1]
  have hr2 : List.range 2 = [0, 1] := by decide
  have hs : verify ptsC6 1 3 2 devC6 =
      { totalNeighbors := 1, totalWrongNeighbors := 1, wrongDistSqs := [9],
        printed := [[1], []] } := by
    rw [verify_characterization, hr2]
    simp [hsc0, hsc1, hw0, hw1]
  have h9 : Real.sqrt (9 : ℝ) = 3 := by
    rw [show (9 : ℝ) = (3 : ℝ) ^ 2 by norm_num, Real.sqrt_sq (by norm_num)]
  have e1 : reportAvgWrongDist (verify ptsC6 1 3 2 devC6) = some 3 := by
    rw [hs]
    unfold reportAvgWrongDist
    norm_num [h9]
  have e2 : specAvgExcessDist 1 (verify ptsC6 1 3 2 devC6) = some 2 := by
    rw [hs]
    unfold specAvgExcessDist
    norm_num [h9]
  refine ⟨hs, by decide, by rw [hs], e1, e2, ?_⟩
  rw [e1, e2]
  simp only [ne_eq, Option.some.injEq]
  norm_num

/-- C6 amended: the verification pass classifies each scanned entry
(the entries before the first sentinel of its row) as incorrect iff its
squared distance to the query exceeds `radius * radius`; it accumulates
for incorrect entries the squared distances whose square roots (the full
distances, not the excess beyond the radius) are summed for the report;
and the average wrong distance is reported iff at least one incorrect
entry exists. -/
theorem c6_amended (pts : List Q3) (radius : ℚ) (knn numPrims : ℕ) (dev : List ℕ) :
    (verify pts radius knn numPrims dev).wrongDistSqs =
      ((List.range numPrims).map
        (fun q => wrongSqsOf pts (radius * radius) q (rowOf dev knn q))).flatten ∧
    (verify pts radius knn numPrims dev).totalWrongNeighbors =
      ((List.range numPrims).map
        (fun q => (wrongSqsOf pts (radius * radius) q (rowOf dev knn q)).length)).sum ∧
    (verify pts radius knn numPrims dev).totalNeighbors =
      ((List.range numPrims).map
        (fun q => (scannedEntries (rowOf dev knn q)).length)).sum ∧
    (reportAvgWrongDist (verify pts radius knn numPrims dev) = none ↔
      (verify pts radius knn numPrims dev).totalWrongNeighbors = 0) := by
  rw [verify_characterization]
  refine ⟨rfl, rfl, rfl, ?_⟩
  unfold reportAvgWrongDist
  split_ifs with h
  · exact iff_of_true rfl h
  · exact iff_of_false (by simp) h

/-! ### Claim C7: unreadable input is fatal -/

/-- C7: when the argument loop completes but the input file cannot be
opened, the run ends in the `read_pc_data` failure path: the diagnostic
is printed, the process terminates abnormally (`assert(0)`, a non-zero
exit status), and no acceleration structure is built and no query
launch happens. -/
theorem c7_source_unavailable (atoi : String → ℕ) (stof : String → ℚ)
    (args : List String) (fs : String → Option (List (List ℚ))) (dev : List ℕ)
    (maxDim : ℕ) (cfg : Config)
    (hp : parseArgs atoi stof args defaultConfig = .ok cfg)
    (hf : fs cfg.outfile = none) :
    mainRun atoi stof args fs dev maxDim = srcUnavailResult ∧
    srcUnavailResult.err = some ProgErr.SourceUnavailable ∧
    srcUnavailResult.diagPrinted = true ∧
    srcUnavailResult.exitOk = false ∧
    srcUnavailResult.builtBatches = [] ∧
    srcUnavailResult.launches = [] := by
  refine ⟨?_, rfl, rfl, rfl, rfl, rfl⟩
  simp only [mainRun, hp, hf]

theorem c7_source_unavailable_witness :
    mainRun atoi0 stof0 ["-f", "nofile"] fsNone [] 3 = srcUnavailResult ∧
    srcUnavailResult.err = some ProgErr.SourceUnavailable ∧
    srcUnavailResult.diagPrinted = true ∧
    srcUnavailResult.exitOk = false ∧
    srcUnavailResult.builtBatches = [] ∧
    srcUnavailResult.launches = [] :=
  c7_source_unavailable atoi0 stof0 ["-f", "nofile"] fsNone [] 3
    { outfile := "nofile", radius := 2, knn := 50 } (by decide) rfl

/-! ### Claim C2: every batch is indexed, only batch 0 is queried -/

/-- C2: on a run that reaches the compute phase, `createGeometry` builds
an acceleration structure for every batch `0 .. ceil(D/3) - 1`, but
exactly one `launchSubframe` call is issued and it carries batch id 0,
and the verification pass depends only on the batch-0 coordinates of the
`ndpoints` store. -/
theorem c2_only_batch_zero_queried (atoi : String → ℕ) (stof : String → ℚ)
    (args : List String) (fs : String → Option (List (List ℚ))) (dev : List ℕ)
    (maxDim : ℕ) (cfg : Config) (rows : List (List ℚ)) (r0 : List ℚ)
    (hp : parseArgs atoi stof args defaultConfig = .ok cfg)
    (hf : fs cfg.outfile = some rows)
    (h0 : rows.head? = some r0)
    (hlen : 0 < r0.length)
    (hmax : padDim r0.length ≤ maxDim) :
    (mainRun atoi stof args fs dev maxDim).builtBatches =
      List.range ((r0.length + 2) / 3) ∧
    (mainRun atoi stof args fs dev maxDim).launches = [0] ∧
    (∀ nd nd' : NdMem, ∀ N : ℕ, (∀ i, nd 0 i = nd' 0 i) →
      pointsOfNd nd N = pointsOfNd nd' N) := by
  have hdim : (read_pc_data rows).dim = padDim r0.length := read_pc_data_dim rows r0 h0
  have hcond : ¬((read_pc_data rows).dim = 0 ∨ maxDim < (read_pc_data rows).dim) := by
    rw [hdim]
    have := padDim_pos r0.length hlen
    omega
  rw [mainRun_ok atoi stof args fs dev maxDim cfg rows hp hf, if_neg hcond]
  refine ⟨?_, rfl, ?_⟩
  · show List.range ((read_pc_data rows).dim / 3) = _
    rw [hdim, padDim_div_three]
  · intro nd nd' N h
    simp only [pointsOfNd]
    exact List.map_congr_left (fun i _ => by rw [h i])

theorem c2_only_batch_zero_queried_witness :
    (mainRun atoi0 stof0 ["-f", "p"] fsOne [] 3).builtBatches =
      List.range ((([(1 : ℚ), 2, 3] : List ℚ).length + 2) / 3) ∧
    (mainRun atoi0 stof0 ["-f", "p"] fsOne [] 3).launches = [0] ∧
    (∀ nd nd' : NdMem, ∀ N : ℕ, (∀ i, nd 0 i = nd' 0 i) →
      pointsOfNd nd N = pointsOfNd nd' N) :=
  c2_only_batch_zero_queried atoi0 stof0 ["-f", "p"] fsOne [] 3
    { outfile := "p", radius := 2, knn := 50 } [[(1 : ℚ), 2, 3]] [(1 : ℚ), 2, 3]
    (by decide) rfl rfl (by decide) (by decide)

/-! ### Claim C8: there is no primitive-count / radius validation -/

/-- C8 counterexample: with search radius `-1` (non-positive) and a
one-point input, the run does not abort and signals no
`IndexBuildFailed`: geometry is built and the batch-0 query launch still
runs, terminating normally. `createGeometry` (lines 309-395) contains no
check of `numPrims` or of the radius' sign. -/
theorem c8_counterexample :
    ((-1 : ℚ) ≤ 0) ∧
    parseArgs atoi0 stofNeg ["-f", "p", "-r", "x"] defaultConfig =
      ParseOutcome.ok { outfile := "p", radius := -1, knn := 50 } ∧
    (mainRun atoi0 stofNeg ["-f", "p", "-r", "x"] fsOne0 [] 3).launches = [0] ∧
    (mainRun atoi0 stofNeg ["-f", "p", "-r", "x"] fsOne0 [] 3).err = none ∧
    (mainRun atoi0 stofNeg ["-f", "p", "-r", "x"] fsOne0 [] 3).exitOk = true ∧
    (mainRun atoi0 stofNeg ["-f", "p", "-r", "x"] fsOne0 [] 3).usagePrinted = false := by
  have hp : parseArgs atoi0 stofNeg ["-f", "p", "-r", "x"] defaultConfig =
      ParseOutcome.ok { outfile := "p", radius := -1, knn := 50 } := by decide
  have hm := mainRun_ok atoi0 stofNeg ["-f", "p", "-r", "x"] fsOne0 [] 3
    { outfile := "p", radius := -1, knn := 50 } [[(0 : ℚ), 0, 0]] hp rfl
  have hcond : ¬((read_pc_data [[(0 : ℚ), 0, 0]]).dim = 0 ∨
      3 < (read_pc_data [[(0 : ℚ), 0, 0]]).dim) := by decide
  rw [if_neg hcond] at hm
  rw [hm]
  exact ⟨by norm_num, hp, rfl, rfl, rfl, rfl⟩

/-- C8 amended: index construction performs no validation at all: a
non-positive radius is accepted and the batch-0 query launch still runs;
a zero primitive count can only arise from an empty input, which exits
through the usage path (exit status 0, nothing built, nothing launched)
before `createGeometry` — there is no `IndexBuildFailed` signal. -/
theorem c8_amended (atoi : String → ℕ) (stof : String → ℚ) (args : List String)
    (fs : String → Option (List (List ℚ))) (dev : List ℕ) (maxDim : ℕ)
    (cfg : Config)
    (hp : parseArgs atoi stof args defaultConfig = .ok cfg) :
    (∀ rows, fs cfg.outfile = some rows → rows = [] →
      mainRun atoi stof args fs dev maxDim = usageResult ∧
      usageResult.exitOk = true ∧ usageResult.builtBatches = [] ∧
      usageResult.launches = []) ∧
    (∀ rows r0, fs cfg.outfile = some rows → rows.head? = some r0 →
      0 < r0.length → padDim r0.length ≤ maxDim → cfg.radius ≤ 0 →
      (mainRun atoi stof args fs dev maxDim).launches = [0] ∧
      (mainRun atoi stof args fs dev maxDim).err = none ∧
      (mainRun atoi stof args fs dev maxDim).exitOk = true) := by
  constructor
  · intro rows hf hrows
    subst hrows
    rw [mainRun_ok atoi stof args fs dev maxDim cfg [] hp hf]
    have hcond : (read_pc_data ([] : List (List ℚ))).dim = 0 ∨
        maxDim < (read_pc_data ([] : List (List ℚ))).dim := Or.inl rfl
    exact ⟨by rw [if_pos hcond], rfl, rfl, rfl⟩
  · intro rows r0 hf h0 hlen hmax _
    have hdim : (read_pc_data rows).dim = padDim r0.length :=
      read_pc_data_dim rows r0 h0
    have hcond : ¬((read_pc_data rows).dim = 0 ∨ maxDim < (read_pc_data rows).dim) := by
      rw [hdim]
      have := padDim_pos r0.length hlen
      omega
    rw [mainRun_ok atoi stof args fs dev maxDim cfg rows hp hf, if_neg hcond]
    exact ⟨rfl, rfl, rfl⟩

theorem c8_amended_witness :
    (∀ rows, fsOne0 "p" = some rows → rows = [] →
      mainRun atoi0 stofNeg ["-f", "p", "-r", "x"] fsOne0 [] 3 = usageResult ∧
      usageResult.exitOk = true ∧ usageResult.builtBatches = [] ∧
      usageResult.launches = []) ∧
    (∀ rows r0, fsOne0 "p" = some rows → rows.head? = some r0 →
      0 < r0.length → padDim r0.length ≤ 3 →
      ({ outfile := "p", radius := -1, knn := 50 } : Config).radius ≤ 0 →
      (mainRun atoi0 stofNeg ["-f", "p", "-r", "x"] fsOne0 [] 3).launches = [0] ∧
      (mainRun atoi0 stofNeg ["-f", "p", "-r", "x"] fsOne0 [] 3).err = none ∧
      (mainRun atoi0 stofNeg ["-f", "p", "-r", "x"] fsOne0 [] 3).exitOk = true) :=
  c8_amended atoi0 stofNeg ["-f", "p", "-r", "x"] fsOne0 [] 3
    { outfile := "p", radius := -1, knn := 50 } (by decide)

/-! ### Claim C9: usage-exit behavior of the argument loop -/

/-- C9 counterexample: the command line `-f p -k --bogus` contains the
unknown flag `--bogus`, but the loop consumes it as the value of `-k`
(`atoi("--bogus") == 0`), so no usage text is printed and (with the file
unreadable here) the run even terminates abnormally instead of exiting 0. -/
theorem c9_counterexample :
    ("--bogus" ∈ ["-f", "p", "-k", "--bogus"]) ∧
    "--bogus" ∉ knownFlags ∧
    (mainRun atoi0 stof0 ["-f", "p", "-k", "--bogus"] fsNone [] 3).usagePrinted = false ∧
    (mainRun atoi0 stof0 ["-f", "p", "-k", "--bogus"] fsNone [] 3).exitOk = false := by
  have hp : parseArgs atoi0 stof0 ["-f", "p", "-k", "--bogus"] defaultConfig =
      ParseOutcome.ok { outfile := "p", radius := 2, knn := 0 } := by decide
  have hm : mainRun atoi0 stof0 ["-f", "p", "-k", "--bogus"] fsNone [] 3 =
      srcUnavailResult := by
    simp only [mainRun, hp, fsNone]
  rw [hm]
  exact ⟨by decide, by decide, rfl, rfl⟩

theorem parseArgs_consumed_usage (atoi : String → ℕ) (stof : String → ℚ)
    (pre : List String) (hc : ConsumedArgs pre) :
    ∀ (u : String) (rest : List String) (cfg : Config),
      (u ∉ knownFlags ∨ u = "--help" ∨ u = "-h") →
      parseArgs atoi stof (pre ++ u :: rest) cfg = .usage := by
  induction hc with
  | nil =>
    intro u rest cfg hu
    rw [List.nil_append]
    cases rest with
    | nil => simp [parseArgs]
    | cons v rest2 =>
      rcases hu with hu | hu | hu
      · simp only [knownFlags, List.mem_cons, List.mem_singleton] at hu
        push_neg at hu
        obtain ⟨h1, h2, h3, h4, h5, h6, h7, h8⟩ := hu
        simp only [parseArgs, h1, h2, h3, h4, h5, h6, h7, h8]
        simp [List.not_mem_nil]
      · simp [parseArgs, hu]
      · simp [parseArgs, hu]
  | file a v rest h _ ih =>
    intro u rest2 cfg hu
    rcases h with h | h <;> subst h <;>
      · simp only [List.cons_append, parseArgs]
        rw [if_neg (by decide), if_pos (by decide)]
        exact ih u rest2 _ hu
  | knn a v rest h _ ih =>
    intro u rest2 cfg hu
    rcases h with h | h <;> subst h <;>
      · simp only [List.cons_append, parseArgs]
        rw [if_neg (by decide), if_neg (by decide), if_pos (by decide)]
        exact ih u rest2 _ hu
  | radius a v rest h _ ih =>
    intro u rest2 cfg hu
    rcases h with h | h <;> subst h <;>
      · simp only [List.cons_append, parseArgs]
        rw [if_neg (by decide), if_neg (by decide), if_neg (by decide),
          if_pos (by decide)]
        exact ih u rest2 _ hu

/-- C9 amended: for every command line in which `--help`/`-h`, or an
unrecognized token, appears in flag position — i.e. after a fully
consumed sequence of known flag/value pairs, rather than as the consumed
value of a `-f`/`-k`/`-r` — the program prints the usage message and
exits with status 0, building nothing and launching nothing. -/
theorem c9_amended (atoi : String → ℕ) (stof : String → ℚ)
    (fs : String → Option (List (List ℚ))) (dev : List ℕ) (maxDim : ℕ)
    (pre : List String) (u : String) (rest : List String)
    (hc : ConsumedArgs pre)
    (hu : u ∉ knownFlags ∨ u = "--help" ∨ u = "-h") :
    mainRun atoi stof (pre ++ u :: rest) fs dev maxDim = usageResult ∧
    usageResult.usagePrinted = true ∧
    usageResult.exitOk = true ∧
    usageResult.builtBatches = [] ∧
    usageResult.launches = [] := by
  refine ⟨?_, rfl, rfl, rfl, rfl⟩
  have hp := parseArgs_consumed_usage atoi stof pre hc u rest defaultConfig hu
  simp only [mainRun, hp]

theorem c9_amended_witness :
    mainRun atoi0 stof0 (["-r", "1"] ++ "--bogus" :: []) fsNone [] 3 = usageResult ∧
    usageResult.usagePrinted = true ∧
    usageResult.exitOk = true ∧
    usageResult.builtBatches = [] ∧
    usageResult.launches = [] :=
  c9_amended atoi0 stof0 fsNone [] 3 ["-r", "1"] "--bogus" []
    (ConsumedArgs.radius "-r" "1" [] (Or.inr rfl) ConsumedArgs.nil)
    (Or.inl (by decide))
